import Mathlib

/-!
Verification of the asynchronous job orchestration subsystem of
collab-workspace-backend.

The development shallowly embeds the job module: the Job entity
(src/shared/entities/job.entity.ts), the JobService operations
(createJob, getJobById, cancelJob, updateJobStatus, syncJobStatus in
src/modules/job/job.service.ts), the JobController type validation
(src/modules/job/job.controller.ts), the QueueManager (src/config/queue.ts)
and the WorkerService lifecycle handlers (worker.service.ts).

The durable store is a list of Job records; TypeORM findOne becomes a
first-match lookup and save becomes an upsert by primary key.  Each findOne
call hydrates a fresh value, so mutations performed through a re-fetched
entity do not alter values fetched earlier; the embedding mirrors this by
passing records by value.  Wall-clock instants are abstracted to natural
numbers supplied by the caller.  JavaScript truthiness on optional strings
and numbers (empty string and zero are falsy) is modelled explicitly.
-/

namespace CollabJobs

/-- The five lifecycle states of a job record (enum JobStatus). -/
inductive JobStatus where
  | pending
  | processing
  | completed
  | failed
  | cancelled
deriving DecidableEq

/-- The closed enumeration of job types (enum JobType). -/
inductive JobType where
  | emailSend
  | fileProcess
  | dataExport
  | notificationSend
  | workspaceBackup
deriving DecidableEq

/-- Opaque structured payloads (jsonb columns) are modelled as finite
string-keyed records; the core never inspects them. -/
abbrev JobData := List (String × String)

/-- The persisted Job entity.  Timestamps are abstract instants (Nat);
nullable columns are Options. -/
structure Job where
  id : String
  type : JobType
  status : JobStatus
  data : JobData
  result : Option JobData
  error : Option String
  idempotencyKey : Option String
  userId : Option String
  attempts : Nat
  maxAttempts : Nat
  startedAt : Option Nat
  completedAt : Option Nat
  failedAt : Option Nat
deriving DecidableEq

/-- The durable record store backing the job repository. -/
abbrev JobStore := List Job

/-- JavaScript truthiness of an optional string: undefined, null and the
empty string are falsy. -/
def strTruthy : Option String → Bool
  | none => false
  | some s => s != ""

/-- JavaScript a-or-b on an optional string against a string default
(the pattern job.idempotencyKey or job.id). -/
def strOr (a : Option String) (b : String) : String :=
  match a with
  | none => b
  | some s => if s = "" then b else s

/-- JavaScript a-or-b on two optional strings (the pattern
userId or dto.userId or null). -/
def optStrOr (a b : Option String) : Option String :=
  if strTruthy a then a else b

/-- JavaScript a-or-b on an optional number against a numeric default
(the pattern dto.maxAttempts or 3; zero is falsy). -/
def natOr (a : Option Nat) (b : Nat) : Nat :=
  match a with
  | none => b
  | some n => if n = 0 then b else n

/-- repository.findOne with a where clause on the primary key. -/
def findJob (store : JobStore) (jobId : String) : Option Job :=
  store.find? (fun j => j.id == jobId)

/-- repository.findOne on the primary key, optionally scoped to an owner:
the service adds the userId clause only when the caller identity is truthy. -/
def findJobWhere (store : JobStore) (jobId : String) (userId : Option String) :
    Option Job :=
  if strTruthy userId then
    store.find? (fun j => j.id == jobId && j.userId == userId)
  else
    findJob store jobId

/-- repository.findOne with a where clause on the idempotency key. -/
def findJobByKey (store : JobStore) (key : String) : Option Job :=
  store.find? (fun j => j.idempotencyKey == some key)

/-- repository.save: update the row with the entity's primary key when it
exists, insert it otherwise. -/
def saveJob (store : JobStore) (job : Job) : JobStore :=
  if (findJob store job.id).isSome then
    store.map (fun j => if j.id == job.id then job else j)
  else
    store ++ [job]

/-- One engine work item as stored by QueueManager.addJob: the queue is
keyed by job type, the item by the BullMQ jobId (idempotency key or record
id), with the owning record id embedded in the item data and the retry
ceiling in the item options. -/
structure QueueItem where
  jobType : JobType
  itemId : String
  dbJobId : String
  data : JobData
  attempts : Nat
deriving DecidableEq

/-- The execution engine's pending item set. -/
abbrev EngineQueue := List QueueItem

/-- queue.getJob: look up an item by queue (job type) and item id. -/
def queueFind (q : EngineQueue) (t : JobType) (itemId : String) :
    Option QueueItem :=
  q.find? (fun it => it.jobType == t && it.itemId == itemId)

/-- QueueManager.addJob: BullMQ dedups on the jobId, so an add with an item
id already present in that queue is silently absorbed. -/
def addJob (q : EngineQueue) (t : JobType) (dbJobId : String) (data : JobData)
    (itemId : String) (attempts : Nat) : EngineQueue :=
  if (queueFind q t itemId).isSome then q
  else q ++ [⟨t, itemId, dbJobId, data, attempts⟩]

/-- QueueManager.removeJob: remove the item when present and report whether
a removal occurred. -/
def removeJob (q : EngineQueue) (t : JobType) (itemId : String) :
    EngineQueue × Bool :=
  if (queueFind q t itemId).isSome then
    (q.filter (fun it => !(it.jobType == t && it.itemId == itemId)), true)
  else (q, false)

/-- The public view returned to callers (JobResponse), which omits the
idempotency key and owner. -/
structure JobResponse where
  id : String
  type : JobType
  status : JobStatus
  data : JobData
  result : Option JobData
  error : Option String
  attempts : Nat
  maxAttempts : Nat
  startedAt : Option Nat
  completedAt : Option Nat
  failedAt : Option Nat
deriving DecidableEq

/-- JobService.mapToResponse. -/
def mapToResponse (job : Job) : JobResponse :=
  { id := job.id
    type := job.type
    status := job.status
    data := job.data
    result := job.result
    error := job.error
    attempts := job.attempts
    maxAttempts := job.maxAttempts
    startedAt := job.startedAt
    completedAt := job.completedAt
    failedAt := job.failedAt }

/-- The record transformation inside JobService.updateJobStatus once the
record has been fetched: status is overwritten unconditionally, result and
error only when a truthy new value is supplied, startedAt only on first
entry to PROCESSING, completedAt and failedAt on every entry to COMPLETED
and FAILED, and every FAILED update increments attempts. -/
def applyUpdate (job : Job) (status : JobStatus) (result : Option JobData)
    (error : Option String) (now : Nat) : Job :=
  let j1 := { job with status := status }
  let j2 := if result.isSome then { j1 with result := result } else j1
  let j3 := if strTruthy error then { j2 with error := error } else j2
  let j4 :=
    if status = JobStatus.processing ∧ j3.startedAt = none then
      { j3 with startedAt := some now }
    else j3
  let j5 :=
    if status = JobStatus.completed then { j4 with completedAt := some now }
    else j4
  let j6 :=
    if status = JobStatus.failed then
      { j5 with failedAt := some now, attempts := j5.attempts + 1 }
    else j5
  j6

/-- JobService.updateJobStatus: fetch the record by id; when absent, log and
return with no mutation; otherwise apply the update and save. -/
def updateJobStatus (store : JobStore) (jobId : String) (status : JobStatus)
    (result : Option JobData) (error : Option String) (now : Nat) : JobStore :=
  match findJob store jobId with
  | none => store
  | some job => saveJob store (applyUpdate job status result error now)

/-- JobService.cancelJob: not found gives false; a record already COMPLETED
or CANCELLED gives false with no mutation; otherwise the engine item is
removed, the status set to CANCELLED and the record saved. -/
def cancelJob (store : JobStore) (q : EngineQueue) (jobId : String)
    (userId : Option String) : JobStore × EngineQueue × Bool :=
  match findJobWhere store jobId userId with
  | none => (store, q, false)
  | some job =>
    if job.status = JobStatus.completed ∨ job.status = JobStatus.cancelled then
      (store, q, false)
    else
      let queueJobId := strOr job.idempotencyKey job.id
      let q2 := (removeJob q job.type queueJobId).1
      (saveJob store { job with status := JobStatus.cancelled }, q2, true)

/-- The create request body (CreateJobDto) after type validation. -/
structure CreateJobDto where
  type : JobType
  data : Option JobData
  idempotencyKey : Option String
  userId : Option String
  maxAttempts : Option Nat
deriving DecidableEq

/-- JobService.createJob: when a truthy idempotency key is supplied and a
record with that key exists, return its view with no store or queue change;
otherwise persist a new PENDING record (attempts zero, defaulted
maxAttempts) and enqueue an engine item whose id is the idempotency key or
the new record id.  The fresh primary key is supplied by the caller. -/
def createJob (store : JobStore) (q : EngineQueue) (dto : CreateJobDto)
    (userId : Option String) (newId : String) :
    JobStore × EngineQueue × JobResponse :=
  let existing : Option Job :=
    if strTruthy dto.idempotencyKey then
      findJobByKey store (dto.idempotencyKey.getD "")
    else none
  match existing with
  | some existingJob => (store, q, mapToResponse existingJob)
  | none =>
    let job : Job :=
      { id := newId
        type := dto.type
        status := JobStatus.pending
        data := dto.data.getD []
        result := none
        error := none
        idempotencyKey := optStrOr dto.idempotencyKey none
        userId := optStrOr userId (optStrOr dto.userId none)
        attempts := 0
        maxAttempts := natOr dto.maxAttempts 3
        startedAt := none
        completedAt := none
        failedAt := none }
    let store2 := saveJob store job
    let q2 := addJob q dto.type job.id (dto.data.getD [])
      (strOr dto.idempotencyKey job.id) job.maxAttempts
    (store2, q2, mapToResponse job)

/-- The engine's report about one item, as probed by syncJobStatus through
isCompleted, isFailed, isActive and isWaiting: otherState stands for an item
in none of those four states (for example delayed). -/
inductive EngineItemState where
  | completedState
  | failedState
  | activeState
  | waitingState
  | otherState
deriving DecidableEq

/-- The engine-side view of an item used by reconciliation: its state, the
stored return value and the failure reason. -/
structure EngineJobView where
  state : EngineItemState
  returnvalue : Option JobData
  failedReason : Option String
deriving DecidableEq

/-- The engine's item table as seen through queueManager.getJob, keyed by
queue (job type) and item id. -/
abbrev EngineViews := List (JobType × String × EngineJobView)

/-- queueManager.getJob on the engine's view table. -/
def engineGetJob (eng : EngineViews) (t : JobType) (itemId : String) :
    Option EngineJobView :=
  (eng.find? (fun e => e.1 == t && e.2.1 == itemId)).map (fun e => e.2.2)

/-- JobService.syncJobStatus: map the engine state onto a status (keeping
the record's own status when the item is in none of the four probed
states), pull the return value as result and the failure reason as error
when truthy, and call updateJobStatus if and only if the mapped status
differs from the record's or a present mapped result or error differs from
the record's.  JavaScript compares the result objects by reference; the
embedding uses structural equality, which coincides on every scenario
considered here because the statuses already differ. -/
def syncJobStatus (store : JobStore) (job : Job) (qj : EngineJobView)
    (now : Nat) : JobStore :=
  let status : JobStatus :=
    match qj.state with
    | EngineItemState.completedState => JobStatus.completed
    | EngineItemState.failedState => JobStatus.failed
    | EngineItemState.activeState => JobStatus.processing
    | EngineItemState.waitingState => JobStatus.pending
    | EngineItemState.otherState => job.status
  let result : Option JobData :=
    match qj.state with
    | EngineItemState.completedState =>
        if qj.returnvalue.isSome then qj.returnvalue else job.result
    | _ => job.result
  let error : Option String :=
    match qj.state with
    | EngineItemState.failedState =>
        if strTruthy qj.failedReason then qj.failedReason else job.error
    | _ => job.error
  if status ≠ job.status ∨ (result.isSome ∧ result ≠ job.result) ∨
      (error.isSome ∧ error ≠ job.error) then
    updateJobStatus store job.id status result error now
  else store

/-- JobService.getJobById: fetch the record (optionally owner-scoped); when
absent return not-found; otherwise look up the engine item by idempotency
key or record id and reconcile when one is found.  The returned view is
mapToResponse of the entity fetched at the top of the call: updateJobStatus
re-fetches its own entity from the store, so the view does not reflect the
reconciliation performed by the same call. -/
def getJobById (store : JobStore) (eng : EngineViews) (jobId : String)
    (userId : Option String) (now : Nat) : JobStore × Option JobResponse :=
  match findJobWhere store jobId userId with
  | none => (store, none)
  | some job =>
    let queueJobId := strOr job.idempotencyKey job.id
    match engineGetJob eng job.type queueJobId with
    | some qj => (syncJobStatus store job qj now, some (mapToResponse job))
    | none => (store, some (mapToResponse job))

/-- The raw create request body before type validation: the type arrives as
an arbitrary string. -/
structure RawCreateJobDto where
  type : String
  data : Option JobData
  idempotencyKey : Option String
  userId : Option String
  maxAttempts : Option Nat
deriving DecidableEq

/-- The string values of the closed JobType enumeration, in declaration
order (Object.values of the enum). -/
def jobTypeValues : List String :=
  ["email:send", "file:process", "data:export", "notification:send",
   "workspace:backup"]

/-- Membership test of the controller (Object.values includes), returning
the matched enum member. -/
def parseJobType (s : String) : Option JobType :=
  if s = "email:send" then some JobType.emailSend
  else if s = "file:process" then some JobType.fileProcess
  else if s = "data:export" then some JobType.dataExport
  else if s = "notification:send" then some JobType.notificationSend
  else if s = "workspace:backup" then some JobType.workspaceBackup
  else none

/-- The 400 response body produced for an unrecognized job type. -/
def invalidTypeMessage : String :=
  "Invalid job type. Valid types: " ++ String.intercalate ", " jobTypeValues

/-- Outcome of the create endpoint: a 201 with the created view or a 400
validation rejection. -/
inductive ControllerResult where
  | created (resp : JobResponse)
  | invalidType (msg : String)
deriving DecidableEq

/-- JobController.createJob: validate the job type against the closed
enumeration before calling the service; an unrecognized type is rejected
with a 400 and the service is never invoked. -/
def controllerCreateJob (store : JobStore) (q : EngineQueue)
    (raw : RawCreateJobDto) (userId : Option String) (newId : String) :
    JobStore × EngineQueue × ControllerResult :=
  match parseJobType raw.type with
  | none => (store, q, ControllerResult.invalidType invalidTypeMessage)
  | some t =>
    let out := createJob store q
      { type := t
        data := raw.data
        idempotencyKey := raw.idempotencyKey
        userId := raw.userId
        maxAttempts := raw.maxAttempts } userId newId
    (out.1, out.2.1, ControllerResult.created out.2.2)

/-- WorkerService.processJob before invoking the processor: transition the
owning record to PROCESSING. -/
def processJobStart (store : JobStore) (dbJobId : String) (now : Nat) :
    JobStore :=
  updateJobStatus store dbJobId JobStatus.processing none none now

/-- The worker completed handler: mark the record COMPLETED with the
processor's result. -/
def workerOnCompleted (store : JobStore) (dbJobId : String) (result : JobData)
    (now : Nat) : JobStore :=
  updateJobStatus store dbJobId JobStatus.completed (some result) none now

/-- The worker failed handler: when the engine's attemptsMade counter has
reached the item's retry ceiling (opts.attempts defaulted to 3), record the
terminal failure; otherwise reset the record to PROCESSING while the engine
schedules the retry. -/
def workerOnFailed (store : JobStore) (dbJobId : String) (attemptsMade : Nat)
    (optsAttempts : Option Nat) (errMsg : String) (now : Nat) : JobStore :=
  let maxAttempts := natOr optsAttempts 3
  if maxAttempts ≤ attemptsMade then
    updateJobStatus store dbJobId JobStatus.failed none (some errMsg) now
  else
    updateJobStatus store dbJobId JobStatus.processing none none now

/-- One delivery of an item to an always-failing processor: the worker
transitions the record to PROCESSING, the processor throws, and the failed
handler runs with the engine's attempt counter at attemptsMade. -/
def failCycle (store : JobStore) (dbJobId : String) (attemptsMade : Nat)
    (optsAttempts : Option Nat) (errMsg : String) (now : Nat) : JobStore :=
  workerOnFailed (processJobStart store dbJobId now) dbJobId attemptsMade
    optsAttempts errMsg now

/-- k deliveries of an item to an always-failing processor, the engine
counting attemptsMade from 1 up to k. -/
def alwaysFailRun (store : JobStore) (dbJobId : String)
    (optsAttempts : Option Nat) (errMsg : String) (now : Nat) :
    Nat → JobStore
  | 0 => store
  | k + 1 =>
    failCycle (alwaysFailRun store dbJobId optsAttempts errMsg now k)
      dbJobId (k + 1) optsAttempts errMsg now

/-! ## Store lemmas -/

lemma find?_cons_pos {α : Type} (p : α → Bool) (a : α) (l : List α)
    (h : p a = true) : (a :: l).find? p = some a := by
  simp [List.find?, h]

lemma find?_cons_neg {α : Type} (p : α → Bool) (a : α) (l : List α)
    (h : p a = false) : (a :: l).find? p = l.find? p := by
  simp [List.find?, h]

lemma findJob_isSome_of_mem {store : JobStore} {x : Job} (hx : x ∈ store)
    {k : String} (hid : x.id = k) : (findJob store k).isSome := by
  unfold findJob
  rw [List.find?_isSome]
  exact ⟨x, hx, by simp [hid]⟩

lemma findJob_map_replace (store : JobStore) (job : Job) :
    findJob (store.map (fun j => if j.id == job.id then job else j)) job.id =
      (findJob store job.id).map (fun _ => job) := by
  induction store with
  | nil => rfl
  | cons y ys ih =>
    simp only [List.map_cons]
    by_cases hy : y.id = job.id
    · have hhead : (if y.id == job.id then job else y) = job := by simp [hy]
      rw [hhead]
      unfold findJob
      rw [find?_cons_pos (fun j => j.id == job.id) job _ (by simp),
        find?_cons_pos (fun j => j.id == job.id) y ys (by simp [hy])]
      rfl
    · have hhead : (if y.id == job.id then job else y) = y := by simp [hy]
      rw [hhead]
      unfold findJob
      rw [find?_cons_neg (fun j => j.id == job.id) y _ (by simp [hy]),
        find?_cons_neg (fun j => j.id == job.id) y ys (by simp [hy])]
      exact ih

lemma findJob_map_replace_ne (store : JobStore) (job : Job) {k : String}
    (hk : k ≠ job.id) :
    findJob (store.map (fun j => if j.id == job.id then job else j)) k =
      findJob store k := by
  induction store with
  | nil => rfl
  | cons y ys ih =>
    simp only [List.map_cons]
    by_cases hy : y.id = job.id
    · have hhead : (if y.id == job.id then job else y) = job := by simp [hy]
      rw [hhead]
      unfold findJob
      have h1 : (job.id == k) = false := by
        simp only [beq_eq_false_iff_ne, ne_eq]
        exact fun h => hk h.symm
      have h2 : (y.id == k) = false := by
        rw [hy]
        exact h1
      rw [find?_cons_neg (fun j => j.id == k) job _ h1,
        find?_cons_neg (fun j => j.id == k) y ys h2]
      exact ih
    · have hhead : (if y.id == job.id then job else y) = y := by simp [hy]
      rw [hhead]
      unfold findJob
      by_cases hyk : y.id = k
      · rw [find?_cons_pos (fun j => j.id == k) y _ (by simp [hyk]),
          find?_cons_pos (fun j => j.id == k) y ys (by simp [hyk])]
      · rw [find?_cons_neg (fun j => j.id == k) y _ (by simp [hyk]),
          find?_cons_neg (fun j => j.id == k) y ys (by simp [hyk])]
        exact ih

lemma findJob_append_single_ne (store : JobStore) (job : Job) {k : String}
    (hk : k ≠ job.id) : findJob (store ++ [job]) k = findJob store k := by
  unfold findJob
  rw [List.find?_append]
  have h0 : (job.id == k) = false := by
    simp only [beq_eq_false_iff_ne, ne_eq]
    exact fun h => hk h.symm
  have h1 : List.find? (fun j => j.id == k) [job] = none := by
    rw [find?_cons_neg (fun j => j.id == k) job [] h0]
    rfl
  rw [h1]
  cases List.find? (fun j => j.id == k) store <;> rfl

lemma findJob_saveJob_self {store : JobStore} (job : Job)
    (h : (findJob store job.id).isSome) :
    findJob (saveJob store job) job.id = some job := by
  unfold saveJob
  rw [if_pos h, findJob_map_replace]
  obtain ⟨x, hx⟩ := Option.isSome_iff_exists.mp h
  rw [hx]
  rfl

lemma findJob_saveJob_ne (store : JobStore) (job : Job) {k : String}
    (hk : k ≠ job.id) : findJob (saveJob store job) k = findJob store k := by
  unfold saveJob
  split
  · exact findJob_map_replace_ne store job hk
  · exact findJob_append_single_ne store job hk

lemma findJobWhere_some {store : JobStore} {jobId : String}
    {userId : Option String} {job : Job}
    (h : findJobWhere store jobId userId = some job) :
    job ∈ store ∧ job.id = jobId := by
  unfold findJobWhere at h
  split at h
  · have hp := List.find?_some h
    have hm := List.mem_of_find?_eq_some h
    simp only [Bool.and_eq_true, beq_iff_eq] at hp
    exact ⟨hm, hp.1⟩
  · unfold findJob at h
    have hp := List.find?_some h
    have hm := List.mem_of_find?_eq_some h
    simp only [beq_iff_eq] at hp
    exact ⟨hm, hp⟩

/-! ## Claim theorems -/

/-- Claim C9: a call to updateJobStatus with a job id that matches no stored
record returns normally and mutates no record: the store is unchanged. -/
theorem updateJobStatus_missing_id_noop (store : JobStore) (jobId : String)
    (status : JobStatus) (result : Option JobData) (error : Option String)
    (now : Nat) (h : findJob store jobId = none) :
    updateJobStatus store jobId status result error now = store := by
  unfold updateJobStatus
  rw [h]

/-- Witness for C9: on a concrete store holding no record with the requested
id, updateJobStatus leaves the store exactly as it was. -/
theorem updateJobStatus_missing_id_noop_witness :
    findJob [] "missing" = none ∧
    updateJobStatus [] "missing" JobStatus.completed none none 0 = [] :=
  ⟨rfl, updateJobStatus_missing_id_noop [] "missing" JobStatus.completed none
    none 0 rfl⟩

/-- Claim C7: a create request whose job type is not a member of the closed
JobType enumeration is rejected synchronously with the invalid-type error:
the store and the engine queue are returned unchanged, so nothing is
persisted and nothing is enqueued. -/
theorem controllerCreateJob_invalid_type (store : JobStore) (q : EngineQueue)
    (raw : RawCreateJobDto) (userId : Option String) (newId : String)
    (h : parseJobType raw.type = none) :
    controllerCreateJob store q raw userId newId =
      (store, q, ControllerResult.invalidType invalidTypeMessage) := by
  unfold controllerCreateJob
  rw [h]

/-- Witness for C7: the concrete type string bogus is outside the closed
enumeration and the create endpoint rejects it with no state change. -/
theorem controllerCreateJob_invalid_type_witness :
    parseJobType "bogus" = none ∧
    controllerCreateJob [] []
      { type := "bogus", data := none, idempotencyKey := none, userId := none,
        maxAttempts := none } none "j9" =
      ([], [], ControllerResult.invalidType invalidTypeMessage) :=
  ⟨by decide, controllerCreateJob_invalid_type [] []
    { type := "bogus", data := none, idempotencyKey := none, userId := none,
      maxAttempts := none } none "j9" (by decide)⟩

/-- Claim C3: createJob with a truthy idempotency key for which a record
already exists returns the existing record's view and changes neither the
store nor the engine queue: the second call is side-effect-free, the
returned id is the existing record's id and its payload is untouched. -/
theorem createJob_idempotent_dedup (store : JobStore) (q : EngineQueue)
    (dto : CreateJobDto) (userId : Option String) (newId : String)
    (k : String) (j : Job) (hk : dto.idempotencyKey = some k) (hke : k ≠ "")
    (hex : findJobByKey store k = some j) :
    createJob store q dto userId newId = (store, q, mapToResponse j) := by
  unfold createJob
  rw [hk]
  simp [strTruthy, hke, hex]

/-- A concrete record carrying the idempotency key abc, used to exercise the
dedup path of createJob. -/
def keyedPendingRecord : Job :=
  { id := "j1", type := JobType.emailSend, status := JobStatus.pending,
    data := [("x", "1")], result := none, error := none,
    idempotencyKey := some "abc", userId := none, attempts := 0,
    maxAttempts := 3, startedAt := none, completedAt := none,
    failedAt := none }

/-- Witness for C3: a second createJob call with the key abc and a different
payload returns the first record's view and leaves store and queue
untouched. -/
theorem createJob_idempotent_dedup_witness :
    ({ type := JobType.emailSend, data := some [("y", "2")],
       idempotencyKey := some "abc", userId := none,
       maxAttempts := none } : CreateJobDto).idempotencyKey = some "abc" ∧
    "abc" ≠ "" ∧
    findJobByKey [keyedPendingRecord] "abc" = some keyedPendingRecord ∧
    createJob [keyedPendingRecord] []
      { type := JobType.emailSend, data := some [("y", "2")],
        idempotencyKey := some "abc", userId := none, maxAttempts := none }
      none "j2" =
      ([keyedPendingRecord], [], mapToResponse keyedPendingRecord) :=
  ⟨rfl, by decide, by decide,
    createJob_idempotent_dedup [keyedPendingRecord] []
      { type := JobType.emailSend, data := some [("y", "2")],
        idempotencyKey := some "abc", userId := none, maxAttempts := none }
      none "j2" "abc" keyedPendingRecord rfl (by decide) (by decide)⟩

/-- A concrete record already in the terminal COMPLETED state, with its
result and completion timestamp populated. -/
def completedRecord : Job :=
  { id := "j1", type := JobType.emailSend, status := JobStatus.completed,
    data := [], result := some [("v", "1")], error := none,
    idempotencyKey := none, userId := none, attempts := 1, maxAttempts := 3,
    startedAt := some 1, completedAt := some 2, failedAt := none }

/-- Claim C1 (evaluation at the failing input): the update path has no
terminal-state guard.  On a record whose status is the terminal COMPLETED,
updateJobStatus with PROCESSING overwrites the status, and updateJobStatus
with FAILED overwrites both the status and the error while bumping
attempts, contradicting the required immutability of terminal records. -/
theorem updateJobStatus_overwrites_terminal :
    completedRecord.status = JobStatus.completed ∧
    (findJob (updateJobStatus [completedRecord] "j1" JobStatus.processing none
        none 9) "j1").map Job.status = some JobStatus.processing ∧
    (findJob (updateJobStatus [completedRecord] "j1" JobStatus.failed none
        (some "late") 9) "j1").map Job.status = some JobStatus.failed ∧
    (findJob (updateJobStatus [completedRecord] "j1" JobStatus.failed none
        (some "late") 9) "j1").map Job.error = some (some "late") := by
  decide

/-- Counterexample for C8: completedAt is not set exactly once.  On a record
already COMPLETED with completedAt populated, a later updateJobStatus call
with the same COMPLETED status overwrites the timestamp. -/
theorem completedAt_overwritten :
    completedRecord.completedAt = some 2 ∧
    (findJob (updateJobStatus [completedRecord] "j1" JobStatus.completed none
        none 9) "j1").map Job.completedAt = some (some 9) := by
  decide

/-- Claim C8 as amended: among the three lifecycle timestamps only startedAt
is written on first entry only; completedAt and failedAt are overwritten on
every update to COMPLETED resp. FAILED. -/
theorem timestamp_update_behavior (job : Job) (result : Option JobData)
    (error : Option String) (now : Nat) :
    ((applyUpdate job JobStatus.processing result error now).startedAt =
      if job.startedAt = none then some now else job.startedAt) ∧
    (applyUpdate job JobStatus.completed result error now).completedAt =
      some now ∧
    (applyUpdate job JobStatus.failed result error now).failedAt = some now := by
  unfold applyUpdate
  by_cases hr : result.isSome <;> by_cases he : strTruthy error <;>
    by_cases hs : job.startedAt = none <;> simp [hr, he, hs]

/-- A concrete record stuck at PROCESSING while the engine has already
completed the corresponding item. -/
def processingRecord : Job :=
  { id := "j1", type := JobType.emailSend, status := JobStatus.processing,
    data := [("x", "1")], result := none, error := none,
    idempotencyKey := none, userId := none, attempts := 0, maxAttempts := 3,
    startedAt := some 1, completedAt := none, failedAt := none }

/-- The engine's view table reporting the item of processingRecord as
completed with a stored return value. -/
def engineCompletedView : EngineViews :=
  [(JobType.emailSend, "j1",
    { state := EngineItemState.completedState,
      returnvalue := some [("ok", "1")], failedReason := none })]

/-- Claim C6 (evaluation at the failing input): when the stored record shows
PROCESSING and the engine reports the item completed, getJobById does
reconcile the stored record to COMPLETED with the engine's return value as
result, but the view it returns is built from the record as fetched before
reconciliation: the caller receives status PROCESSING and an absent result
on that very call. -/
theorem getJobById_stale_view :
    ((getJobById [processingRecord] engineCompletedView "j1" none 5).2).map
      JobResponse.status = some JobStatus.processing ∧
    ((getJobById [processingRecord] engineCompletedView "j1" none 5).2).map
      JobResponse.result = some none ∧
    (findJob (getJobById [processingRecord] engineCompletedView "j1" none
      5).1 "j1").map Job.status = some JobStatus.completed ∧
    (findJob (getJobById [processingRecord] engineCompletedView "j1" none
      5).1 "j1").map Job.result = some (some [("ok", "1")]) := by
  decide

lemma cancelJob_found (store : JobStore) (q : EngineQueue) (jobId : String)
    (userId : Option String) (job : Job)
    (h : findJobWhere store jobId userId = some job) :
    cancelJob store q jobId userId =
      if job.status = JobStatus.completed ∨ job.status = JobStatus.cancelled
      then (store, q, false)
      else (saveJob store { job with status := JobStatus.cancelled },
        (removeJob q job.type (strOr job.idempotencyKey job.id)).1, true) := by
  unfold cancelJob
  rw [h]

/-- A concrete record already in the terminal FAILED state. -/
def failedRecord : Job :=
  { id := "j1", type := JobType.emailSend, status := JobStatus.failed,
    data := [], result := none, error := some "x", idempotencyKey := none,
    userId := none, attempts := 3, maxAttempts := 3, startedAt := some 1,
    completedAt := none, failedAt := some 3 }

/-- Counterexample for C5: cancelJob does move a FAILED record to CANCELLED,
because its guard rejects only COMPLETED and CANCELLED, so CANCELLED is
reachable from the terminal FAILED state as well. -/
theorem cancelJob_cancels_failed :
    failedRecord.status = JobStatus.failed ∧
    (cancelJob [failedRecord] [] "j1" none).2.2 = true ∧
    (findJob (cancelJob [failedRecord] [] "j1" none).1 "j1").map Job.status =
      some JobStatus.cancelled := by
  decide

/-- Claim C5 as amended: cancelJob succeeds exactly on records whose status
is PENDING, PROCESSING or FAILED, and on success the record's status becomes
CANCELLED; so CANCELLED is reachable from those three states and only
COMPLETED and CANCELLED records are protected. -/
theorem cancelJob_success_iff (store : JobStore) (q : EngineQueue)
    (jobId : String) (userId : Option String) (job : Job)
    (h : findJobWhere store jobId userId = some job) :
    ((cancelJob store q jobId userId).2.2 = true ↔
      (job.status = JobStatus.pending ∨ job.status = JobStatus.processing ∨
        job.status = JobStatus.failed)) ∧
    ((cancelJob store q jobId userId).2.2 = true →
      (findJob (cancelJob store q jobId userId).1 job.id).map Job.status =
        some JobStatus.cancelled) := by
  obtain ⟨hmem, hid⟩ := findJobWhere_some h
  have hsome : (findJob store job.id).isSome := findJob_isSome_of_mem hmem rfl
  rw [cancelJob_found store q jobId userId job h]
  by_cases hc : job.status = JobStatus.completed ∨
      job.status = JobStatus.cancelled
  · rw [if_pos hc]
    constructor
    · simp only [false_iff]
      rcases hc with hc | hc <;> rw [hc] <;> simp
    · intro hfalse
      simp at hfalse
  · rw [if_neg hc]
    constructor
    · simp only [true_iff]
      cases hst : job.status <;> simp [hst] at hc ⊢
    · intro _
      have hself := findJob_saveJob_self
        { job with status := JobStatus.cancelled } hsome
      simp only [hself]
      rfl

/-- Witness for C5 amended: instantiated at the concrete FAILED record, the
success condition holds and the record ends CANCELLED. -/
theorem cancelJob_success_iff_witness :
    findJobWhere [failedRecord] "j1" none = some failedRecord ∧
    (((cancelJob [failedRecord] [] "j1" none).2.2 = true ↔
      (failedRecord.status = JobStatus.pending ∨
        failedRecord.status = JobStatus.processing ∨
        failedRecord.status = JobStatus.failed)) ∧
    ((cancelJob [failedRecord] [] "j1" none).2.2 = true →
      (findJob (cancelJob [failedRecord] [] "j1" none).1
        failedRecord.id).map Job.status = some JobStatus.cancelled)) :=
  ⟨by decide, cancelJob_success_iff [failedRecord] [] "j1" none failedRecord
    (by decide)⟩

/-- Claim C4: cancelJob returns false and leaves store and queue unchanged
when the record is absent or already COMPLETED or CANCELLED; on a PENDING
record it returns true, removes the engine item keyed by the idempotency
key or record id from the queue, and the record's status becomes
CANCELLED. -/
theorem cancelJob_spec (store : JobStore) (q : EngineQueue) (jobId : String)
    (userId : Option String) :
    (findJobWhere store jobId userId = none →
      cancelJob store q jobId userId = (store, q, false)) ∧
    (∀ job, findJobWhere store jobId userId = some job →
      (job.status = JobStatus.completed ∨ job.status = JobStatus.cancelled) →
      cancelJob store q jobId userId = (store, q, false)) ∧
    (∀ job, findJobWhere store jobId userId = some job →
      job.status = JobStatus.pending →
      (cancelJob store q jobId userId).2.2 = true ∧
      (cancelJob store q jobId userId).2.1 =
        (removeJob q job.type (strOr job.idempotencyKey job.id)).1 ∧
      (findJob (cancelJob store q jobId userId).1 job.id).map Job.status =
        some JobStatus.cancelled) := by
  refine ⟨fun h => ?_, fun job h hc => ?_, fun job h hp => ?_⟩
  · unfold cancelJob
    rw [h]
  · rw [cancelJob_found store q jobId userId job h, if_pos hc]
  · obtain ⟨hmem, hid⟩ := findJobWhere_some h
    have hsome : (findJob store job.id).isSome := findJob_isSome_of_mem hmem rfl
    have hc : ¬ (job.status = JobStatus.completed ∨
        job.status = JobStatus.cancelled) := by
      rw [hp]
      simp
    rw [cancelJob_found store q jobId userId job h, if_neg hc]
    refine ⟨rfl, rfl, ?_⟩
    have hself := findJob_saveJob_self
      { job with status := JobStatus.cancelled } hsome
    simp only [hself]
    rfl

/-- Witness for C4: instantiated at a concrete PENDING record whose engine
item sits in the queue, cancellation succeeds, the item is removed and the
record becomes CANCELLED. -/
theorem cancelJob_spec_witness :
    findJobWhere [keyedPendingRecord] "j1" none = some keyedPendingRecord ∧
    keyedPendingRecord.status = JobStatus.pending ∧
    ((cancelJob [keyedPendingRecord]
        [⟨JobType.emailSend, "abc", "j1", [("x", "1")], 3⟩] "j1" none).2.2 =
      true ∧
    (cancelJob [keyedPendingRecord]
        [⟨JobType.emailSend, "abc", "j1", [("x", "1")], 3⟩] "j1" none).2.1 =
      (removeJob [⟨JobType.emailSend, "abc", "j1", [("x", "1")], 3⟩]
        keyedPendingRecord.type
        (strOr keyedPendingRecord.idempotencyKey keyedPendingRecord.id)).1 ∧
    (findJob (cancelJob [keyedPendingRecord]
        [⟨JobType.emailSend, "abc", "j1", [("x", "1")], 3⟩] "j1" none).1
      keyedPendingRecord.id).map Job.status = some JobStatus.cancelled) :=
  ⟨by decide, by decide,
    (cancelJob_spec [keyedPendingRecord]
        [⟨JobType.emailSend, "abc", "j1", [("x", "1")], 3⟩] "j1" none).2.2
      keyedPendingRecord (by decide) (by decide)⟩

/-- Claim C10: a successful cancelJob mutates only the status field of the
target record: the stored record after the call equals the prior record
with status replaced by CANCELLED (so type, data, result, error, attempts,
maxAttempts, startedAt, completedAt, failedAt, idempotencyKey and userId
are identical), and every record with a different id is looked up
unchanged. -/
theorem cancelJob_frame (store : JobStore) (q : EngineQueue) (jobId : String)
    (userId : Option String) (job : Job)
    (h : findJobWhere store jobId userId = some job)
    (hok : (cancelJob store q jobId userId).2.2 = true) :
    findJob (cancelJob store q jobId userId).1 job.id =
      some { job with status := JobStatus.cancelled } ∧
    ∀ k, k ≠ job.id →
      findJob (cancelJob store q jobId userId).1 k = findJob store k := by
  obtain ⟨hmem, hid⟩ := findJobWhere_some h
  have hsome : (findJob store job.id).isSome := findJob_isSome_of_mem hmem rfl
  rw [cancelJob_found store q jobId userId job h] at hok ⊢
  by_cases hc : job.status = JobStatus.completed ∨
      job.status = JobStatus.cancelled
  · rw [if_pos hc] at hok
    simp at hok
  · rw [if_neg hc]
    refine ⟨?_, fun k hk => ?_⟩
    · exact findJob_saveJob_self { job with status := JobStatus.cancelled }
        hsome
    · exact findJob_saveJob_ne store { job with status := JobStatus.cancelled }
        hk

/-- A concrete unrelated record with a different primary key, used to
exercise the frame condition. -/
def otherRecord : Job :=
  { id := "j7", type := JobType.dataExport, status := JobStatus.processing,
    data := [("z", "9")], result := none, error := none,
    idempotencyKey := none, userId := some "u2", attempts := 0,
    maxAttempts := 3, startedAt := some 4, completedAt := none,
    failedAt := none }

/-- Witness for C10: instantiated at the concrete PENDING record alongside a
second unrelated record, only the target's status changes and the other
record's lookup is untouched. -/
theorem cancelJob_frame_witness :
    findJobWhere [keyedPendingRecord, otherRecord] "j1" none =
      some keyedPendingRecord ∧
    (cancelJob [keyedPendingRecord, otherRecord] [] "j1" none).2.2 =
      true ∧
    (findJob (cancelJob [keyedPendingRecord, otherRecord] [] "j1"
        none).1 keyedPendingRecord.id =
      some { keyedPendingRecord with status := JobStatus.cancelled } ∧
    ∀ k, k ≠ keyedPendingRecord.id →
      findJob (cancelJob [keyedPendingRecord, otherRecord] [] "j1"
          none).1 k =
        findJob [keyedPendingRecord, otherRecord] k) :=
  ⟨by decide, by decide,
    cancelJob_frame [keyedPendingRecord, otherRecord] [] "j1" none
      keyedPendingRecord (by decide) (by decide)⟩

/-- A freshly created record for the attempt-ceiling scenario: PENDING,
zero attempts, retry ceiling N. -/
def freshJob (N : Nat) : Job :=
  { id := "j1", type := JobType.emailSend, status := JobStatus.pending,
    data := [], result := none, error := none, idempotencyKey := none,
    userId := none, attempts := 0, maxAttempts := N, startedAt := none,
    completedAt := none, failedAt := none }

/-- The record during the retry phase of the always-failing run: PROCESSING,
attempts still zero, startedAt stamped by the first delivery. -/
def procRunJob (N t : Nat) : Job :=
  { freshJob N with status := JobStatus.processing, startedAt := some t }

/-- The record after the terminal failure of the always-failing run: FAILED,
error recorded, attempts incremented exactly once. -/
def failedRunJob (N t : Nat) (e : String) : Job :=
  { freshJob N with
      status := JobStatus.failed
      startedAt := some t
      error := some e
      failedAt := some t
      attempts := 1 }

lemma natOr_some_pos (N d : Nat) (hN : N ≠ 0) : natOr (some N) d = N := by
  simp [natOr, hN]

lemma strTruthy_some {e : String} (he : e ≠ "") : strTruthy (some e) = true := by
  simp [strTruthy, he]

lemma processStart_fresh (N t : Nat) :
    processJobStart [freshJob N] "j1" t = [procRunJob N t] := rfl

lemma processStart_proc (N t : Nat) :
    processJobStart [procRunJob N t] "j1" t = [procRunJob N t] := rfl

lemma failHandler_retry (N t a : Nat) (e : String) (hN : N ≠ 0) (ha : a < N) :
    workerOnFailed [procRunJob N t] "j1" a (some N) e t = [procRunJob N t] := by
  simp only [workerOnFailed]
  rw [natOr_some_pos N 3 hN, if_neg (Nat.not_le.mpr ha)]
  rfl

lemma failHandler_terminal (N t a : Nat) (e : String) (hN : N ≠ 0)
    (ha : N ≤ a) (he : e ≠ "") :
    workerOnFailed [procRunJob N t] "j1" a (some N) e t =
      [failedRunJob N t e] := by
  simp only [workerOnFailed]
  rw [natOr_some_pos N 3 hN, if_pos ha]
  show saveJob [procRunJob N t]
      (applyUpdate (procRunJob N t) JobStatus.failed none (some e) t) =
    [failedRunJob N t e]
  have happ : applyUpdate (procRunJob N t) JobStatus.failed none (some e) t =
      failedRunJob N t e := by
    unfold applyUpdate
    rw [strTruthy_some he]
    rfl
  rw [happ]
  rfl

lemma alwaysFailRun_invariant (N t : Nat) (e : String) (hN : N ≠ 0) :
    ∀ k, 1 ≤ k → k < N →
      alwaysFailRun [freshJob N] "j1" (some N) e t k = [procRunJob N t] := by
  intro k
  induction k with
  | zero =>
    intro h1 _
    exact absurd h1 (by decide)
  | succ k ih =>
    intro _ hlt
    show failCycle (alwaysFailRun [freshJob N] "j1" (some N) e t k) "j1"
      (k + 1) (some N) e t = [procRunJob N t]
    rcases Nat.eq_zero_or_pos k with hk0 | hk1
    · subst hk0
      show failCycle [freshJob N] "j1" 1 (some N) e t = [procRunJob N t]
      unfold failCycle
      rw [processStart_fresh]
      exact failHandler_retry N t 1 e hN hlt
    · rw [ih hk1 (Nat.lt_of_succ_lt hlt)]
      unfold failCycle
      rw [processStart_proc]
      exact failHandler_retry N t (k + 1) e hN hlt

/-- Claim C2 as amended: with maxAttempts N at least 1 and an always-failing
processor, each of the first N minus 1 failures leaves the record at
PROCESSING with attempts unchanged at zero; the record transitions to
FAILED exactly at the Nth failure, when the engine's own attemptsMade
counter reaches the item's retry ceiling, and only that final FAILED update
increments attempts, so the run ends FAILED with attempts equal to 1 (which
never exceeds maxAttempts), not N. -/
theorem alwaysFail_run_final_state (N t : Nat) (e : String) (hN : 1 ≤ N)
    (he : e ≠ "") :
    alwaysFailRun [freshJob N] "j1" (some N) e t N = [failedRunJob N t e] ∧
    (∀ k, 1 ≤ k → k < N →
      alwaysFailRun [freshJob N] "j1" (some N) e t k = [procRunJob N t]) ∧
    (failedRunJob N t e).status = JobStatus.failed ∧
    (failedRunJob N t e).attempts = 1 ∧
    (failedRunJob N t e).attempts ≤ (failedRunJob N t e).maxAttempts := by
  have hN0 : N ≠ 0 := by omega
  refine ⟨?_, alwaysFailRun_invariant N t e hN0, rfl, rfl, hN⟩
  obtain ⟨M, rfl⟩ : ∃ M, N = M + 1 := ⟨N - 1, by omega⟩
  show failCycle (alwaysFailRun [freshJob (M + 1)] "j1" (some (M + 1)) e t M)
    "j1" (M + 1) (some (M + 1)) e t = [failedRunJob (M + 1) t e]
  rcases Nat.eq_zero_or_pos M with hM0 | hM1
  · subst hM0
    show failCycle [freshJob 1] "j1" 1 (some 1) e t = [failedRunJob 1 t e]
    unfold failCycle
    rw [processStart_fresh]
    exact failHandler_terminal 1 t 1 e (by decide) (by decide) he
  · rw [alwaysFailRun_invariant (M + 1) t e hN0 M hM1 (by omega)]
    unfold failCycle
    rw [processStart_proc]
    exact failHandler_terminal (M + 1) t (M + 1) e hN0 (Nat.le_refl _) he

/-- Counterexample for C2: with maxAttempts 2 and an always-failing
processor, the record ends with attempts equal to 1, not 2, so the claimed
final value attempts equal to N fails at N equal to 2. -/
theorem alwaysFail_attempts_counterexample :
    (findJob (alwaysFailRun [freshJob 2] "j1" (some 2) "boom" 7 2)
      "j1").map Job.attempts = some 1 ∧
    ¬ (findJob (alwaysFailRun [freshJob 2] "j1" (some 2) "boom" 7 2)
      "j1").map Job.attempts = some 2 := by
  decide

/-- Witness for C2 amended: instantiated at maxAttempts 3 with a concrete
error message, the run ends FAILED with attempts 1 after two pure
PROCESSING failure cycles. -/
theorem alwaysFail_run_final_state_witness :
    (1 ≤ 3) ∧ ("boom" ≠ "") ∧
    (alwaysFailRun [freshJob 3] "j1" (some 3) "boom" 0 3 =
      [failedRunJob 3 0 "boom"] ∧
    (∀ k, 1 ≤ k → k < 3 →
      alwaysFailRun [freshJob 3] "j1" (some 3) "boom" 0 k =
        [procRunJob 3 0]) ∧
    (failedRunJob 3 0 "boom").status = JobStatus.failed ∧
    (failedRunJob 3 0 "boom").attempts = 1 ∧
    (failedRunJob 3 0 "boom").attempts ≤
      (failedRunJob 3 0 "boom").maxAttempts) :=
  ⟨by decide, by decide,
    alwaysFail_run_final_state 3 0 "boom" (by decide) (by decide)⟩

end CollabJobs
